import Mathlib

/-!
# Verification of the beacon path-measurement library

A shallow embedding of the Go sources (builder.go, path.go, transport.go,
traffic.go, hash.go) of the `beacon` library, together with theorems that
settle the frozen claims about packet construction, path manipulation,
transport, hash dispatch and the Boomerang probe engine.

Modelling conventions:
* `net.IP` addresses are opaque values, modelled as `Nat`; `net.IP.Equal`
  becomes equality on `Nat`.
* Byte strings (`[]byte`, Go `string` used as a byte container) are `List Nat`.
* Machine integers are `Nat` with an explicit `% 2 ^ 16` where the source
  converts through `uint16`.
* Fallible Go functions return `Except String _`; a Go runtime panic
  (out-of-range slice index) is modelled as `Option.none`.
* Go channels are modelled by `GoChan`: a capacity and the list of buffered
  elements.  A blocking send into a channel that no other task can drain
  completes exactly when the buffer has free space.
-/

namespace Beacon

/-- An IPv4 address, opaque for the purposes of this development. -/
abbrev IP := Nat

/-- A byte string. -/
abbrev Bytes := List Nat

/-- Header length constants.  The Go constants file is not part of the
sources; the values are fixed by the spec (builder scenario arithmetic
`4*20 + 20 + 8 + 1 = 109`): an IPv4 header is 20 bytes and a UDP header
8 bytes. -/
def ipHeaderLen : Nat := 20

/-- UDP header length in bytes (see `ipHeaderLen`). -/
def udpHeaderLen : Nat := 8

/-- ICMP header length in bytes (see `ipHeaderLen`). -/
def icmpHeaderLen : Nat := 8

/-- Go `uint16(x)` conversion of a non-negative integer: keep the low 16 bits. -/
def uint16 (x : Nat) : Nat := x % 65536

/-- The `Protocol` field values used by the builders
(`layers.IPProtocolIPv4` = 4, i.e. IP-in-IP, `layers.IPProtocolUDP`,
`layers.IPProtocolICMPv4`). -/
inductive IPProtocol where
  | ipv4
  | udp
  | icmp
  deriving DecidableEq, Repr

/-- The fields of a `layers.IPv4` header that the builders populate. -/
structure IPv4Layer where
  version : Nat
  ihl : Nat
  length : Nat
  dontFragment : Bool
  ttl : Nat
  protocol : IPProtocol
  srcIP : IP
  dstIP : IP
  deriving DecidableEq, Repr

/-- A serializable layer: an IPv4 header or raw payload bytes
(`gopacket.Payload`). -/
inductive SerializableLayer where
  | ip (l : IPv4Layer)
  | payload (bytes : Bytes)
  deriving DecidableEq, Repr

/-- builder.go `buildIPIPLayer`: an IPv4 header with version 4, IHL 5,
the given total length, the DF flag set, TTL 255 and protocol IP-in-IP. -/
def buildIPIPLayer (sourceIP destIP : IP) (totalLength : Nat) : IPv4Layer :=
  { version := 4, ihl := 5, length := totalLength, dontFragment := true,
    ttl := 255, protocol := .ipv4, srcIP := sourceIP, dstIP := destIP }

/-- builder.go `buildUDPLayer`: as `buildIPIPLayer` but with protocol UDP. -/
def buildUDPLayer (sourceIP destIP : IP) (totalLength : Nat) : IPv4Layer :=
  { version := 4, ihl := 5, length := totalLength, dontFragment := true,
    ttl := 255, protocol := .udp, srcIP := sourceIP, dstIP := destIP }

/-- The outgoing IP-in-IP header written by iteration `idx` of the loop in
`CreateRoundTripPacketForPath` (stored at position `idx`). -/
def roundTripOut (path : List IP) (payload : Bytes) (idx : Nat) : SerializableLayer :=
  .ip (buildIPIPLayer (path.getD idx 0) (path.getD (idx + 1) 0)
    (uint16 (ipHeaderLen * (2 * (path.length - 1) - idx) +
      (payload.length + udpHeaderLen + ipHeaderLen))))

/-- The returning IP-in-IP header written by iteration `idx` of the loop in
`CreateRoundTripPacketForPath` (stored at position `numLayers - idx - 1`). -/
def roundTripRet (path : List IP) (payload : Bytes) (idx : Nat) : SerializableLayer :=
  .ip (buildIPIPLayer (path.getD (idx + 1) 0) (path.getD idx 0)
    (uint16 (ipHeaderLen * (idx + 1) +
      (payload.length + udpHeaderLen + ipHeaderLen))))

/-- builder.go `CreateRoundTripPacketForPath`.  The Go code allocates a slice
of `numLayers = 2*(numHops-1)` layers (modelled by a `List.replicate` of
placeholder layers, every position of which is overwritten by the loop) and,
for each `idx` in `[0, numHops-2]`, stores the outgoing header at position
`idx` and the returning header at position `numLayers - idx - 1`; it then
appends a UDP-protocol IPv4 header (src `path[1]`, dst `path[0]`) and the
payload bytes.  The commented-out `layers.UDP` segment of the source is not
serialized.  Serialization itself (`gopacket.SerializeLayers` with
`ComputeChecksums` and without `FixLengths`) emits the layers in order with
the length fields exactly as set here. -/
def CreateRoundTripPacketForPath (path : List IP) (payload : Bytes) :
    Except String (List SerializableLayer) :=
  if path.length < 2 then .error "Path must have atleast 2 hops"
  else
    let numHops := path.length
    let numLayers := 2 * (numHops - 1)
    let constructedLayers :=
      (List.range (numHops - 1)).foldl
        (fun acc idx =>
          (acc.set idx (roundTripOut path payload idx)).set
            (numLayers - idx - 1) (roundTripRet path payload idx))
        (List.replicate numLayers (.payload []))
    .ok (constructedLayers ++
      [.ip (buildUDPLayer (path.getD 1 0) (path.getD 0 0)
        (uint16 (ipHeaderLen + udpHeaderLen + payload.length))),
       .payload payload])

/-- The layer list produced by `CreateRoundTripPacketForPath`
(empty on the error branch). -/
def roundTripLayers (path : List IP) (payload : Bytes) : List SerializableLayer :=
  (CreateRoundTripPacketForPath path payload).toOption.getD []

/-- The `i`-th layer of a packet (placeholder payload when out of range). -/
def nthLayer (L : List SerializableLayer) (i : Nat) : SerializableLayer :=
  L.getD i (.payload [])

/-- The number of bytes a layer occupies once serialized: `IHL * 4` for an
IPv4 header (the builders always use IHL 5, i.e. 20 bytes, and
`ComputeChecksums` does not change sizes), the byte count for raw payload. -/
def layerByteSize : SerializableLayer → Nat
  | .ip l => l.ihl * 4
  | .payload bytes => bytes.length

/-- Total serialized bytes from layer `i` (inclusive) to the end of the packet. -/
def bytesFrom (L : List SerializableLayer) (i : Nat) : Nat :=
  ((L.drop i).map layerByteSize).sum

/-- The `Length` field of an IPv4 layer (none for raw payload). -/
def layerLengthField : SerializableLayer → Option Nat
  | .ip l => some l.length
  | .payload _ => none

/-- Structure of the round-trip packet for a path `P` of length `n ≥ 2`
(claim C1): construction succeeds; the packet is `2(n-1)` IP-in-IP headers —
for `i ∈ [0, n-2]` the `i`-th has src `P[i]`, dst `P[i+1]`, and the
matching returning header at mirrored position `2(n-1)-1-i` has src `P[i+1]`,
dst `P[i]` — followed by a UDP-protocol IPv4 header with src `P[1]`,
dst `P[0]`, followed by the payload bytes. -/
def RoundTripPacketSpec (path : List IP) (payload : Bytes) : Prop :=
  CreateRoundTripPacketForPath path payload = .ok (roundTripLayers path payload) ∧
  (roundTripLayers path payload).length = 2 * (path.length - 1) + 2 ∧
  (∀ i, i < path.length - 1 →
    (∃ len, nthLayer (roundTripLayers path payload) i =
      .ip (buildIPIPLayer (path.getD i 0) (path.getD (i + 1) 0) len)) ∧
    (∃ len, nthLayer (roundTripLayers path payload) (2 * (path.length - 1) - 1 - i) =
      .ip (buildIPIPLayer (path.getD (i + 1) 0) (path.getD i 0) len))) ∧
  (∃ len, nthLayer (roundTripLayers path payload) (2 * (path.length - 1)) =
    .ip (buildUDPLayer (path.getD 1 0) (path.getD 0 0) len)) ∧
  nthLayer (roundTripLayers path payload) (2 * (path.length - 1) + 1) =
    .payload payload

/-- Length fields of the round-trip packet (claim C2, amended): the `i`-th
outgoing header carries `uint16(iphdr*(2(n-1)-i) + |payload| + udphdr + iphdr)`
and the mirrored returning header `uint16(iphdr*(i+1) + |payload| + udphdr +
iphdr)`; the whole serialized packet occupies `iphdr*2(n-1) + iphdr +
|payload|` bytes, so the outermost Length field overcounts the bytes that
follow it by `udphdr = 8` (no UDP header is ever serialized). -/
def RoundTripLengthSpec (path : List IP) (payload : Bytes) : Prop :=
  (∀ i, i < path.length - 1 →
    layerLengthField (nthLayer (roundTripLayers path payload) i) =
      some (uint16 (ipHeaderLen * (2 * (path.length - 1) - i) +
        (payload.length + udpHeaderLen + ipHeaderLen))) ∧
    layerLengthField (nthLayer (roundTripLayers path payload)
        (2 * (path.length - 1) - 1 - i)) =
      some (uint16 (ipHeaderLen * (i + 1) +
        (payload.length + udpHeaderLen + ipHeaderLen)))) ∧
  bytesFrom (roundTripLayers path payload) 0 =
    ipHeaderLen * (2 * (path.length - 1)) + ipHeaderLen + payload.length ∧
  layerLengthField (nthLayer (roundTripLayers path payload) 0) =
    some (uint16 (bytesFrom (roundTripLayers path payload) 0 + udpHeaderLen))

/-- The observable effect of transport.go `SendTo`: the packet bytes are
handed to the raw socket addressed to `dest`.  Socket-level failure is
environment-dependent and not needed by the claims, so the send itself is
recorded as a value. -/
inductive SendResult where
  | sent (packetData : Bytes) (dest : IP)
  deriving DecidableEq, Repr

/-- transport.go `SendToPath`: returns an error when `len(path) < 1`,
otherwise calls `tc.SendTo(packetData, path[1])`.  The index access
`path[1]` is modelled by `path[1]?`; `Option.none` models the Go runtime
index-out-of-range panic that the `len(path) < 1` guard fails to prevent
when `len(path) == 1`. -/
def SendToPath (packetData : Bytes) (path : List IP) :
    Option (Except String SendResult) :=
  if path.length < 1 then some (.error "path must be non-empty")
  else (path[1]?).map (fun ip => .ok (.sent packetData ip))

/-- path.go `SubPath` loop body: iterate the path and, at the first element
equal to `lastHop`, return the prefix up to and including it (`p[:idx+1]`);
`none` when the loop finishes without a match. -/
def subPathAux : List IP → IP → Option (List IP)
  | [], _ => none
  | ip :: rest, lastHop =>
    if lastHop = ip then some [ip]
    else (subPathAux rest lastHop).map (fun s => ip :: s)

/-- path.go `SubPath`: the prefix of `p` up to and including the first
occurrence of `lastHop`, or the empty path when `lastHop` does not occur
(the fall-through `return []net.IP{}`). -/
def SubPath (p : List IP) (lastHop : IP) : List IP :=
  (subPathAux p lastHop).getD []

/-- A Go channel: a fixed capacity and the list of currently buffered
elements (oldest first). -/
structure GoChan (α : Type) where
  capacity : Nat
  buffer : List α
  deriving DecidableEq, Repr

/-- Go channel construction `make(chan T, capacity)`; plain `make(chan T)`
has capacity 0. -/
def GoChan.make (α : Type) (capacity : Nat) : GoChan α :=
  { capacity := capacity, buffer := [] }

/-- Whether a send can complete right away without a receiver: true iff the
buffer has free space. -/
def GoChan.hasSpace {α : Type} (c : GoChan α) : Bool :=
  c.buffer.length < c.capacity

/-- A blocking send `c <- x` by a task that no receiver is currently
draining: it completes immediately iff the buffer has space; `none` models
the sender staying blocked until some receiver drains the channel. -/
def GoChan.send {α : Type} (c : GoChan α) (x : α) : Option (GoChan α) :=
  if c.buffer.length < c.capacity then some { c with buffer := c.buffer ++ [x] }
  else none

/-- Whether `needle` is an initial segment of `hay`. -/
def hasPrefixList : List Char → List Char → Bool
  | [], _ => true
  | _ :: _, [] => false
  | a :: as, b :: bs => a = b && hasPrefixList as bs

/-- Go `strings.Contains(hay, needle)` on character lists. -/
def containsSub : List Char → List Char → Bool
  | needle, [] => hasPrefixList needle []
  | needle, b :: rest => hasPrefixList needle (b :: rest) || containsSub needle rest

/-- The check `strings.Contains(tc.filter, "ip proto 4")` from traffic.go. -/
def containsIPProto4 (filter : String) : Bool :=
  containsSub "ip proto 4".data filter.data

/-- traffic.go `BoomerangPayload` (`{DestIP, ID, TxTimestamp, RxTimestamp}`);
the UUID string and the UTC timestamps are opaque values modelled as `Nat`. -/
structure BoomerangPayload where
  destIP : IP
  id : Nat
  txTimestamp : Nat
  rxTimestamp : Nat
  deriving DecidableEq, Repr

/-- The Go zero value of `BoomerangPayload` (nil `DestIP` modelled as 0,
empty `ID` as 0, zero times as 0). -/
def zeroPayload : BoomerangPayload :=
  { destIP := 0, id := 0, txTimestamp := 0, rxTimestamp := 0 }

/-- traffic.go `BoomerangResult`: `Err` (nil modelled as `none`),
`ErrorType` (a Go `int`), `Payload`. -/
structure BoomerangResult where
  err : Option String
  errorType : Nat
  payload : BoomerangPayload
  deriving DecidableEq, Repr

/-- traffic.go `BoomerangErrorType` constants: `timedOut = iota` (0). -/
def timedOut : Nat := 0

/-- traffic.go `fatal = iota` (1). -/
def fatal : Nat := 1

/-- traffic.go `sendError = iota` (2). -/
def sendError : Nat := 2

/-- The fatal result built on the bad-filter branches of
`ProbeEachHopOfPath` and `ProbeEachHopOfPathSync`. -/
def fatalFilterResult (filter : String) : BoomerangResult :=
  { err := some ("The supplied TransportChannel must have a BPFFilter containing ip proto 4. The supplied filter was: " ++ filter),
    errorType := fatal, payload := zeroPayload }

/-- traffic.go `ProbeEachHopOfPath`, parametrized by the outcome
`boomerang prefix` of each single probe.  When the filter lacks
`"ip proto 4"` the code makes an unbuffered channel (`make(chan
BoomerangResult)`, capacity 0) and performs a blocking send of the fatal
result into it *before* returning the channel; since no other task holds
the channel, the send can never complete, which `none` models.  On the good
branch the per-prefix `Probe` streams (prefixes `path[0:i]`, `i ∈ [2, n]`,
`numPackets` results each) are merged into one output; the `merge` helper is
not among the source files, so, following the spec, the interleaving is
abstracted as a concatenation (C5 only concerns the bad-filter branch). -/
def ProbeEachHopOfPath (filter : String) (path : List IP) (numPackets : Nat)
    (boomerang : List IP → BoomerangResult) : Option (List BoomerangResult) :=
  if ¬ containsIPProto4 filter then
    if (GoChan.make BoomerangResult 0).hasSpace then some [fatalFilterResult filter]
    else none
  else
    some (((List.range' 2 (path.length - 1)).map (fun i =>
      (List.range numPackets).map (fun _ => boomerang (path.take i)))).flatten)

/-- traffic.go `ProbeEachHopOfPathSync`.  The bad-filter branch is the same
blocking send before return as in `ProbeEachHopOfPath`.  On the good branch
the outer loop runs `numPackets` rounds; each round concurrently probes
every prefix `path[0:i]`, `i ∈ [2, n]`, waits for all results of the round
to be received, and then sleeps; afterwards the deferred close fires (the
Bool component records that the channel was closed).  Within a round the
fan-out order is a scheduling choice, modelled as ascending prefix length. -/
def ProbeEachHopOfPathSync (filter : String) (path : List IP) (numPackets : Nat)
    (boomerang : List IP → BoomerangResult) :
    Option (List BoomerangResult × Bool) :=
  if ¬ containsIPProto4 filter then
    if (GoChan.make BoomerangResult 0).hasSpace then
      some ([fatalFilterResult filter], false)
    else none
  else
    some (((List.range numPackets).map (fun _ =>
      (List.range' 2 (path.length - 1)).map (fun i => boomerang (path.take i)))).flatten,
      true)

/-- A received packet, reduced to the only part the hash table inspects:
its application-layer payload (`none` when the packet has no application
layer). -/
structure Packet where
  appPayload : Option Bytes
  deriving DecidableEq, Repr

/-- hash.go `BoomerangPacketHasher`: the first 20 payload bytes
(4-byte magic + 16-byte UUID); an error when the application layer is
absent or shorter than 20 bytes.  (The error string of the source contains
a character excluded from this file; the text is paraphrased here.) -/
def BoomerangPacketHasher (p : Packet) : Except String Bytes :=
  match p.appPayload with
  | none => .error "packet had no application layer or payload shorter than 20 bytes"
  | some bytes =>
    if bytes.length < 20 then
      .error "packet had no application layer or payload shorter than 20 bytes"
    else .ok (bytes.take 20)

/-- hash.go `packetHashMap`: the Go map from hash to delivery channel
(modelled as an association list) and the attached hashers. -/
structure packetHashMap where
  m : List (Bytes × GoChan Packet)
  hashers : List (Packet → Except String Bytes)

/-- Lookup in the hash map (`phm.m[computedHash]`). -/
def lookupAssoc (m : List (Bytes × GoChan Packet)) (k : Bytes) :
    Option (GoChan Packet) :=
  (m.find? (fun e => e.1 = k)).map (fun e => e.2)

/-- In-place mutation of the channel stored under key `k` (Go channels are
references; a send mutates the channel object held in the map). -/
def updateAssoc (m : List (Bytes × GoChan Packet)) (k : Bytes)
    (c : GoChan Packet) : List (Bytes × GoChan Packet) :=
  m.map (fun e => if e.1 = k then (k, c) else e)

/-- The `computedHashSlice` loop of `packetHashMap.run`: apply every hasher,
skipping the ones that error. -/
def computedHashSlice (phm : packetHashMap) (p : Packet) : List Bytes :=
  phm.hashers.foldl
    (fun acc hasher =>
      match hasher p with
      | .error _ => acc
      | .ok computedHash => acc ++ [computedHash])
    []

/-- One iteration of the dispatch loop of `packetHashMap.run` (the body of
`for _, computedHash := range computedHashSlice`): on a map hit, the
*blocking* send `packetMatchChannel <- p` (the source has no
select/default), which mutates the channel held in the map; a `none` state
means the dispatcher is already blocked. -/
def runStep (p : Packet) (st : Option (List (Bytes × GoChan Packet)))
    (computedHash : Bytes) : Option (List (Bytes × GoChan Packet)) :=
  st.bind (fun mm =>
    match lookupAssoc mm computedHash with
    | none => some mm
    | some packetMatchChannel =>
      (packetMatchChannel.send p).map (fun c2 => updateAssoc mm computedHash c2))

/-- hash.go `packetHashMap.run`: compute all hashes, then, under the mutex,
deliver to each matching queue in order.  `none` means some send found its
capacity-1 channel already full, so the dispatcher blocks until a receiver
drains it. -/
def packetHashMap.run (phm : packetHashMap) (p : Packet) : Option packetHashMap :=
  ((computedHashSlice phm p).foldl (runStep p) (some phm.m)).map
    (fun mm => { phm with m := mm })

/-- The 20-byte key used by the C7 scenario. -/
def c7Key : Bytes := List.replicate 20 7

/-- The packet already sitting undrained in the capacity-1 queue. -/
def c7OldPacket : Packet := { appPayload := some c7Key }

/-- A newly received packet whose first 20 payload bytes hash to `c7Key`. -/
def c7NewPacket : Packet := { appPayload := some (c7Key ++ [9]) }

/-- The delivery channel for `c7Key`, already holding an undrained packet. -/
def c7FullChan : GoChan Packet := { capacity := 1, buffer := [c7OldPacket] }

/-- A hash map with the Boomerang hasher attached and a full queue
registered under `c7Key`. -/
def c7Phm : packetHashMap :=
  { m := [(c7Key, c7FullChan)], hashers := [BoomerangPacketHasher] }

/-- Same map but with the queue empty. -/
def c7PhmEmpty : packetHashMap :=
  { m := [(c7Key, { capacity := 1, buffer := [] })],
    hashers := [BoomerangPacketHasher] }

/-- Modelled from the spec: the Listener Table implementation
(`ListenerMap`, `NewListener`, `RegisterListener`, `UnregisterListener`) is
not among the source files — only its callers in traffic.go are.  Per the
spec a listener is created on registration (allocating its capacity-1
queue) and destroyed only by an explicit unregister, which removes the
entry and closes its queue; dispatch never auto-removes a matching listener
("a listener matching once MUST continue to receive subsequent matches
until unregistered").  Listeners are identified by registration order. -/
structure ListenerMap where
  registered : List Nat
  nextId : Nat
  deriving DecidableEq, Repr

/-- Modelled from the spec: `RegisterListener` inserts a new listener and
returns its handle. -/
def ListenerMap.registerListener (lm : ListenerMap) : Nat × ListenerMap :=
  (lm.nextId, { registered := lm.registered ++ [lm.nextId], nextId := lm.nextId + 1 })

/-- Modelled from the spec: `UnregisterListener` removes the entry and
closes its queue. -/
def ListenerMap.unregisterListener (lm : ListenerMap) (listenerId : Nat) :
    ListenerMap :=
  { registered := lm.registered.filter (fun x => x ≠ listenerId),
    nextId := lm.nextId }

/-- The empty listener table. -/
def emptyListenerMap : ListenerMap := { registered := [], nextId := 0 }

/-- The bytes of `json.Marshal(NewBoomerangPayload(destHop, id))`: the exact JSON bytes
are never inspected by the claims, so the encoding is abstracted to the
pair of values it determines. -/
def marshalBoomerangPayload (destIP : IP) (uuid : Nat) : Bytes :=
  [destIP, uuid]

/-- The environment of one Boomerang run: the generated UUID, the clock
readings, whether the raw-socket send fails, whether a matching reply is
seen before the timer fires, and the decoded payload of that reply. -/
structure BoomerangEnv where
  uuid : Nat
  txTime : Nat
  rxTime : Nat
  timeoutTime : Nat
  sendFails : Bool
  replyBeforeTimer : Bool
  replyPayload : BoomerangPayload
  deriving DecidableEq, Repr

/-- traffic.go `Boomerang`, with the listener table threaded explicitly.
The source, in order: reads `destHop := path[len(path)-1]` (a panic on an
empty path, modelled as `none`); marshals the payload; builds the
round-trip packet (`fatal` result on error, before any registration);
registers a listener; transmits (`sendError` result on failure — no
unregister); then selects between the listener queue and the timer.  On a
matching reply the rx goroutine stamps `RxTimestamp` and produces a result
whose `Err` and `ErrorType` fields are left at their Go zero values, the tx
goroutine stamps `TxTimestamp`, and no `UnregisterListener` call occurs on
this branch; on timeout the listener is unregistered and a `timedOut`
result is produced. -/
def Boomerang (lm : ListenerMap) (path : List IP) (timeout : Nat)
    (env : BoomerangEnv) : Option (BoomerangResult × ListenerMap) :=
  match path.getLast? with
  | none => none
  | some destHop =>
    match CreateRoundTripPacketForPath path (marshalBoomerangPayload destHop env.uuid) with
    | .error e => some ({ err := some e, errorType := fatal, payload := zeroPayload }, lm)
    | .ok _buf =>
      let reg := lm.registerListener
      if env.sendFails then
        some ({ err := some "error in SendToPath", errorType := sendError,
                payload := { zeroPayload with destIP := destHop } }, reg.2)
      else if env.replyBeforeTimer then
        -- BoomerangResult{Payload: *unmarshalledPayload}: ErrorType is the
        -- zero value 0 of the Go int enum (numerically equal to timedOut)
        some ({ err := none, errorType := 0,
                payload := { env.replyPayload with
                  txTimestamp := env.txTime, rxTimestamp := env.rxTime } }, reg.2)
      else
        some ({ err := some "timed out waiting for packet",
                errorType := timedOut,
                payload := { destIP := destHop, id := 0,
                             txTimestamp := env.txTime,
                             rxTimestamp := env.timeoutTime } },
              reg.2.unregisterListener reg.1)

/-- Environment of a successful probe for the C4 scenario. -/
def c4Env : BoomerangEnv :=
  { uuid := 1, txTime := 10, rxTime := 60, timeoutTime := 0,
    sendFails := false, replyBeforeTimer := true,
    replyPayload := { destIP := 2, id := 1, txTimestamp := 0, rxTimestamp := 0 } }

/-- Environment of a successful probe for the C8 scenario. -/
def c8EnvOk : BoomerangEnv :=
  { uuid := 5, txTime := 1, rxTime := 2, timeoutTime := 9,
    sendFails := false, replyBeforeTimer := true,
    replyPayload := { destIP := 2, id := 5, txTimestamp := 0, rxTimestamp := 0 } }

/-- Environment of a timed-out probe for the C8 scenario. -/
def c8EnvTimeout : BoomerangEnv :=
  { uuid := 5, txTime := 1, rxTime := 2, timeoutTime := 9,
    sendFails := false, replyBeforeTimer := false,
    replyPayload := { destIP := 2, id := 5, txTimestamp := 0, rxTimestamp := 0 } }

/-- A concrete probe-outcome function for the C9 witness. -/
def c9Probe : List IP → BoomerangResult := fun prefixPath =>
  { err := none, errorType := timedOut,
    payload := { destIP := prefixPath.getD 0 0, id := 0,
                 txTimestamp := 0, rxTimestamp := 0 } }

/-- A concrete probe-outcome function for the C5 scenario. -/
def c5Probe : List IP → BoomerangResult := fun _ =>
  { err := none, errorType := timedOut, payload := zeroPayload }

/-- What the capture goroutine of path.go `GetPathChannelTo` resolves one
iteration of the TTL loop to: a discovered hop pushed on `found`, the
per-TTL timer firing, or the completion signal on `done`. -/
inductive ProbeEvent where
  | found (ip : IP)
  | timeout
  | done
  deriving DecidableEq, Repr

/-- The TTL loop of path.go `GetPathChannelTo` over an explicit list of TTL
values: each iteration sends a probe and then selects a `ProbeEvent`;
`found ip` emits `ip`, `timeout` emits `nil` (`none`), `done` returns — and
in every exit the deferred `close(pathChan)` fires (the Bool component
records the close). -/
def pathChannelLoop (oracle : Nat → ProbeEvent) : List Nat → List (Option IP) × Bool
  | [] => ([], true)
  | ttl :: rest =>
    match oracle ttl with
    | .found ip =>
      let r := pathChannelLoop oracle rest
      (some ip :: r.1, r.2)
    | .timeout =>
      let r := pathChannelLoop oracle rest
      (none :: r.1, r.2)
    | .done => ([], true)

/-- The emissions of a `GetPathChannelTo` run, from the start of its
`for ttl = 1; ttl <= 32; ttl++` loop (entry checks — the `"icmp"` filter
guard, source-IP resolution and the listener-ready handshake — precede the
loop and are outside this claim). -/
def GetPathChannelToTTLLoop (oracle : Nat → ProbeEvent) : List (Option IP) × Bool :=
  pathChannelLoop oracle (List.range' 1 32)

/-! ## Characterizing the array fill of `CreateRoundTripPacketForPath` -/

theorem replicate_set_zero {α : Type _} (d a : α) (n : Nat) :
    (List.replicate (n + 1) d).set 0 a = a :: List.replicate n d := by
  simp [List.replicate_succ]

theorem replicate_set_last {α : Type _} (d a : α) (n : Nat) :
    (List.replicate (n + 1) d).set n a = List.replicate n d ++ [a] := by
  induction n with
  | zero => rfl
  | succ n ih =>
    rw [List.replicate_succ, List.set_cons_succ, ih, List.replicate_succ,
      List.cons_append]

/-- After the first `k` loop iterations the layer array holds the outgoing
headers `f 0 … f (k-1)` in front, the returning headers `g (k-1) … g 0` at
the back, and untouched placeholders in between. -/
theorem fill_aux {α : Type _} (f g : Nat → α) (d : α) (m : Nat) :
    ∀ k, k ≤ m →
      (List.range k).foldl
        (fun acc idx => (acc.set idx (f idx)).set (2 * m - idx - 1) (g idx))
        (List.replicate (2 * m) d)
      = (List.range k).map f ++ List.replicate (2 * m - 2 * k) d ++
          (List.range k).reverse.map g := by
  intro k
  induction k with
  | zero => simp
  | succ k ih =>
    intro hk
    have hkm : k < m := hk
    rw [List.range_succ, List.foldl_append, ih (Nat.le_of_lt hkm)]
    simp only [List.foldl_cons, List.foldl_nil]
    have hlenf : ((List.range k).map f).length = k := by simp
    have hmid : 2 * m - 2 * k = (2 * m - 2 * k - 1) + 1 := by omega
    -- first write: position k lands at the head of the placeholder block
    have e1 : ((List.range k).map f ++ (List.replicate (2 * m - 2 * k) d ++
        (List.range k).reverse.map g)).set k (f k)
        = (List.range k).map f ++ (f k :: (List.replicate (2 * m - 2 * k - 1) d ++
            (List.range k).reverse.map g)) := by
      rw [List.set_append_right _ _ (le_of_eq hlenf), hlenf, Nat.sub_self,
        List.set_append_left 0 (f k) (by simp; omega), hmid, replicate_set_zero,
        List.cons_append]
      simp
    -- second write: position 2*m - k - 1 lands at the end of that block
    have e2 : ((List.range k).map f ++ (f k :: (List.replicate (2 * m - 2 * k - 1) d ++
        (List.range k).reverse.map g))).set (2 * m - k - 1) (g k)
        = (List.range k).map f ++ (f k :: (List.replicate (2 * m - 2 * k - 2) d ++
            ([g k] ++ (List.range k).reverse.map g))) := by
      rw [List.set_append_right _ _
        (by rw [hlenf]; omega : ((List.range k).map f).length ≤ 2 * m - k - 1),
        hlenf]
      have hi : 2 * m - k - 1 - k = (2 * m - 2 * k - 2) + 1 := by omega
      rw [hi, List.set_cons_succ,
        List.set_append_left _ _ (by simp; omega)]
      have hc : 2 * m - 2 * k - 1 = (2 * m - 2 * k - 2) + 1 := by omega
      rw [hc, replicate_set_last, List.append_assoc]
    rw [List.append_assoc, e1, e2]
    have h2 : 2 * m - 2 * (k + 1) = 2 * m - 2 * k - 2 := by omega
    rw [h2]
    simp [List.append_assoc]

/-- Closed form of the packet built by `CreateRoundTripPacketForPath`:
outgoing headers in index order, then returning headers in reverse index
order, then the UDP-protocol IPv4 header, then the payload. -/
theorem createRoundTrip_eq (path : List IP) (payload : Bytes)
    (h : 2 ≤ path.length) :
    CreateRoundTripPacketForPath path payload = .ok (
      (List.range (path.length - 1)).map (roundTripOut path payload) ++
      (List.range (path.length - 1)).reverse.map (roundTripRet path payload) ++
      [.ip (buildUDPLayer (path.getD 1 0) (path.getD 0 0)
        (uint16 (ipHeaderLen + udpHeaderLen + payload.length))),
       .payload payload]) := by
  have hnot : ¬ path.length < 2 := by omega
  simp only [CreateRoundTripPacketForPath, hnot, if_false]
  rw [fill_aux (roundTripOut path payload) (roundTripRet path payload)
    (.payload []) (path.length - 1) (path.length - 1) le_rfl]
  simp [List.append_assoc]

theorem roundTripLayers_eq (path : List IP) (payload : Bytes)
    (h : 2 ≤ path.length) :
    roundTripLayers path payload =
      (List.range (path.length - 1)).map (roundTripOut path payload) ++
      (List.range (path.length - 1)).reverse.map (roundTripRet path payload) ++
      [.ip (buildUDPLayer (path.getD 1 0) (path.getD 0 0)
        (uint16 (ipHeaderLen + udpHeaderLen + payload.length))),
       .payload payload] := by
  simp [roundTripLayers, createRoundTrip_eq path payload h, Except.toOption]

theorem roundTripLayers_length (path : List IP) (payload : Bytes)
    (h : 2 ≤ path.length) :
    (roundTripLayers path payload).length = 2 * (path.length - 1) + 2 := by
  simp [roundTripLayers_eq path payload h]
  omega

theorem nthLayer_out (path : List IP) (payload : Bytes) (h : 2 ≤ path.length)
    (i : Nat) (hi : i < path.length - 1) :
    nthLayer (roundTripLayers path payload) i = roundTripOut path payload i := by
  rw [roundTripLayers_eq path payload h]
  have hiA : i < ((List.range (path.length - 1)).map (roundTripOut path payload)).length := by
    simpa using hi
  rw [nthLayer, List.getD_eq_getElem?_getD, List.append_assoc,
    List.getElem?_append_left hiA, List.getElem?_eq_getElem hiA]
  simp

theorem nthLayer_ret (path : List IP) (payload : Bytes) (h : 2 ≤ path.length)
    (i : Nat) (hi : i < path.length - 1) :
    nthLayer (roundTripLayers path payload) (2 * (path.length - 1) - 1 - i) =
      roundTripRet path payload i := by
  rw [roundTripLayers_eq path payload h]
  have hA : ((List.range (path.length - 1)).map (roundTripOut path payload)).length
      = path.length - 1 := by simp
  have hB : (((List.range (path.length - 1)).reverse).map
      (roundTripRet path payload)).length = path.length - 1 := by simp
  rw [nthLayer, List.getD_eq_getElem?_getD, List.append_assoc,
    List.getElem?_append_right (by omega : ((List.range (path.length - 1)).map
      (roundTripOut path payload)).length ≤ 2 * (path.length - 1) - 1 - i),
    List.getElem?_append_left (by rw [hA, hB]; omega)]
  have hidx : 2 * (path.length - 1) - 1 - i - ((List.range (path.length - 1)).map
      (roundTripOut path payload)).length = path.length - 1 - 1 - i := by
    rw [hA]; omega
  rw [hidx]
  have hbound : path.length - 1 - 1 - i < (((List.range (path.length - 1)).reverse).map
      (roundTripRet path payload)).length := by rw [hB]; omega
  rw [List.getElem?_eq_getElem hbound]
  simp only [List.getElem_map, List.getElem_reverse, List.getElem_range,
    Option.getD_some, List.length_reverse, List.length_range]
  congr 1
  omega

theorem nthLayer_udp (path : List IP) (payload : Bytes) (h : 2 ≤ path.length) :
    nthLayer (roundTripLayers path payload) (2 * (path.length - 1)) =
      .ip (buildUDPLayer (path.getD 1 0) (path.getD 0 0)
        (uint16 (ipHeaderLen + udpHeaderLen + payload.length))) := by
  rw [roundTripLayers_eq path payload h]
  have hA : ((List.range (path.length - 1)).map (roundTripOut path payload) ++
      ((List.range (path.length - 1)).reverse).map (roundTripRet path payload)).length
      = 2 * (path.length - 1) := by simp; omega
  rw [nthLayer, List.getD_eq_getElem?_getD,
    List.getElem?_append_right (le_of_eq hA), hA, Nat.sub_self]
  simp

theorem nthLayer_payloadBytes (path : List IP) (payload : Bytes)
    (h : 2 ≤ path.length) :
    nthLayer (roundTripLayers path payload) (2 * (path.length - 1) + 1) =
      .payload payload := by
  rw [roundTripLayers_eq path payload h]
  have hA : ((List.range (path.length - 1)).map (roundTripOut path payload) ++
      ((List.range (path.length - 1)).reverse).map (roundTripRet path payload)).length
      = 2 * (path.length - 1) := by simp; omega
  rw [nthLayer, List.getD_eq_getElem?_getD,
    List.getElem?_append_right (by omega : ((List.range (path.length - 1)).map
      (roundTripOut path payload) ++ ((List.range (path.length - 1)).reverse).map
      (roundTripRet path payload)).length ≤ 2 * (path.length - 1) + 1), hA]
  have : 2 * (path.length - 1) + 1 - 2 * (path.length - 1) = 1 := by omega
  rw [this]
  simp

/-- Every serialized layer of the round-trip packet before the payload is a
20-byte IPv4 header, so the whole packet occupies
`20 * 2*(n-1) + 20 + |payload|` bytes. -/
theorem bytesFrom_zero (path : List IP) (payload : Bytes)
    (h : 2 ≤ path.length) :
    bytesFrom (roundTripLayers path payload) 0 =
      ipHeaderLen * (2 * (path.length - 1)) + ipHeaderLen + payload.length := by
  rw [roundTripLayers_eq path payload h]
  simp only [bytesFrom, List.drop_zero, List.map_append, List.sum_append,
    List.map_map]
  have hout : (layerByteSize ∘ roundTripOut path payload) = fun _ => 20 := by
    funext i
    simp [layerByteSize, roundTripOut, buildIPIPLayer]
  have hret : (layerByteSize ∘ roundTripRet path payload) = fun _ => 20 := by
    funext i
    simp [layerByteSize, roundTripRet, buildIPIPLayer]
  rw [hout, hret, List.map_const', List.map_const']
  simp [List.sum_replicate, layerByteSize, buildUDPLayer, ipHeaderLen]
  omega

/-! ## Claim C1 -/

/-- C1: for every path of length `n ≥ 2` and every payload,
`CreateRoundTripPacketForPath` succeeds and builds exactly `2(n-1)` IP-in-IP
headers — the `i`-th outgoing with src `P[i]`, dst `P[i+1]`, mirrored by a
returning header with src `P[i+1]`, dst `P[i]` — then a single UDP-protocol
IPv4 header with src `P[1]`, dst `P[0]` (in particular the first header has
src `P[0]`, dst `P[1]` and the final IP header src `P[1]`, dst `P[0]`), then
the payload bytes. -/
theorem C1_roundTripPacket_structure (path : List IP) (payload : Bytes)
    (h : 2 ≤ path.length) : RoundTripPacketSpec path payload := by
  refine ⟨?_, roundTripLayers_length path payload h, ?_, ?_, ?_⟩
  · rw [createRoundTrip_eq path payload h, roundTripLayers_eq path payload h]
  · intro i hi
    exact ⟨⟨_, (nthLayer_out path payload h i hi).trans rfl⟩,
      ⟨_, (nthLayer_ret path payload h i hi).trans rfl⟩⟩
  · exact ⟨_, nthLayer_udp path payload h⟩
  · exact nthLayer_payloadBytes path payload h

/-- Witness for C1 at the 2-hop path `[1, 2]` with payload `[7]`. -/
theorem C1_roundTripPacket_structure_witness :
    2 ≤ ([1, 2] : List IP).length ∧ RoundTripPacketSpec [1, 2] [7] :=
  ⟨by decide, C1_roundTripPacket_structure [1, 2] [7] (by decide)⟩

/-! ## Claim C2 -/

/-- C2 (amended): the Length fields carry the spec formulas truncated to
`uint16`, but they exceed the bytes that actually follow by `udpHeaderLen`:
no UDP header is serialized. -/
theorem C2_roundTripPacket_lengths (path : List IP) (payload : Bytes)
    (h : 2 ≤ path.length) : RoundTripLengthSpec path payload := by
  refine ⟨?_, bytesFrom_zero path payload h, ?_⟩
  · intro i hi
    constructor
    · rw [nthLayer_out path payload h i hi]
      rfl
    · rw [nthLayer_ret path payload h i hi]
      rfl
  · rw [bytesFrom_zero path payload h,
      nthLayer_out path payload h 0 (by omega)]
    simp [roundTripOut, layerLengthField, buildIPIPLayer, uint16]
    omega

/-- Witness for C2 at the builder-scenario path `[1, 2, 3]` with the 1-byte
payload `[120]` (so the outermost Length field is
`uint16(20*4 + 1 + 8 + 20) = 109`). -/
theorem C2_roundTripPacket_lengths_witness :
    2 ≤ ([1, 2, 3] : List IP).length ∧ RoundTripLengthSpec [1, 2, 3] [120] :=
  ⟨by decide, C2_roundTripPacket_lengths [1, 2, 3] [120] (by decide)⟩

/-- On a 2-hop path the outermost Length field is
`uint16(|payload| + 68)`, for any payload. -/
theorem outField_two_hop (p : Bytes) :
    layerLengthField (roundTripOut [1, 2] p 0) = some (uint16 (p.length + 68)) := by
  simp only [roundTripOut, layerLengthField, buildIPIPLayer, List.length_cons,
    List.length_nil]
  congr 1
  norm_num [ipHeaderLen, udpHeaderLen, uint16]
  omega

/-- Counterexample to C2 as stated: in the builder scenario
(`P = [1,2,3]`, payload `"x" = [120]`) the Length field of the outermost header is
109, yet only 101 bytes are serialized from that header to the end of the
packet (the `udpHeaderLen = 8` bytes counted by the formula are never
emitted); moreover the Length formulas only hold modulo `2^16`: with a
65536-byte payload on a 2-hop path the outermost field is 68, not
`20*2 + 65536 + 28 = 65604`. -/
theorem C2_roundTripPacket_lengths_counterexample :
    layerLengthField (nthLayer (roundTripLayers [1, 2, 3] [120]) 0) = some 109 ∧
    bytesFrom (roundTripLayers [1, 2, 3] [120]) 0 = 101 ∧
    layerLengthField (nthLayer (roundTripLayers [1, 2, 3] [120]) 0) ≠
      some (bytesFrom (roundTripLayers [1, 2, 3] [120]) 0) ∧
    layerLengthField (nthLayer (roundTripLayers [1, 2]
      (List.replicate 65536 0)) 0) = some 68 := by
  refine ⟨by decide, by decide, by decide, ?_⟩
  rw [nthLayer_out [1, 2] (List.replicate 65536 0) (by norm_num) 0 (by norm_num),
    outField_two_hop, List.length_replicate]
  norm_num [uint16]

/-! ## Claim C3 -/

/-- C3: `SendToPath` rejects only the empty path (`len(path) < 1`), yet it
then accesses `path[1]`; evaluating the model shows that on a one-element
path the call is not total — the guard passes and the index access is out of
bounds (a Go runtime panic, modelled as `none`) instead of the send the
claim promises — while two-element paths do send to `path[1]`. -/
theorem C3_sendToPath_oob :
    SendToPath [0] [] = some (.error "path must be non-empty") ∧
    SendToPath [0] [5] = none ∧
    SendToPath [0] [5, 6] = some (.ok (.sent [0] 6)) :=
  ⟨rfl, rfl, rfl⟩

/-! ## Claim C6 -/

/-- The loop of `SubPath` returns `p[0..k]` when `k` is the first occurrence
of `p[k]` in `p`. -/
theorem subPathAux_first (p : List IP) (k : Nat) (hk : k < p.length)
    (hfirst : ∀ j, j < k → p.getD j 0 ≠ p.getD k 0) :
    subPathAux p (p.getD k 0) = some (p.take (k + 1)) := by
  induction p generalizing k with
  | nil => simp at hk
  | cons a rest ih =>
    cases k with
    | zero => simp [subPathAux]
    | succ j =>
      have h0 := hfirst 0 (by omega)
      have ha : (a :: rest).getD (j + 1) 0 ≠ a := by
        intro hcontra
        apply h0
        simp only [List.getD_cons_zero]
        exact hcontra.symm
      have hk' : j < rest.length := by simpa using hk
      have hfirst' : ∀ i, i < j → rest.getD i 0 ≠ rest.getD j 0 := by
        intro i hij
        have := hfirst (i + 1) (by omega)
        simpa using this
      simp only [subPathAux, List.getD_cons_succ] at ha ⊢
      rw [if_neg ha, ih j hk' (by simpa using hfirst')]
      simp

/-- The loop of `SubPath` falls through to the empty path when the IP is
absent. -/
theorem subPathAux_not_mem (p : List IP) (x : IP) (hx : x ∉ p) :
    subPathAux p x = none := by
  induction p with
  | nil => rfl
  | cons a rest ih =>
    have hxa : x ≠ a := fun h => hx (h ▸ List.mem_cons_self a rest)
    have hxr : x ∉ rest := fun h => hx (List.mem_cons_of_mem a h)
    simp [subPathAux, hxa, ih hxr]

/-- C6 (amended): `SubPath(P, P[k])` is the prefix `P[0..k]` inclusive
whenever `k` is the *first* occurrence of `P[k]` in `P` (in general the
returned prefix ends at the first occurrence), and `SubPath(P, X)` is empty
when `X` does not occur in `P`. -/
theorem C6_subPath_first_occurrence (p : List IP) (k : Nat) (x : IP)
    (hk : k < p.length)
    (hfirst : ∀ j, j < k → p.getD j 0 ≠ p.getD k 0)
    (hx : x ∉ p) :
    SubPath p (p.getD k 0) = p.take (k + 1) ∧ SubPath p x = [] := by
  constructor
  · rw [SubPath, subPathAux_first p k hk hfirst]
    rfl
  · rw [SubPath, subPathAux_not_mem p x hx]
    rfl

/-- Witness for the amended C6 at `P = [4, 5]`, `k = 1`, `X = 9`. -/
theorem C6_subPath_first_occurrence_witness :
    (1 < ([4, 5] : List IP).length) ∧
    (∀ j, j < 1 → ([4, 5] : List IP).getD j 0 ≠ ([4, 5] : List IP).getD 1 0) ∧
    ((9 : IP) ∉ ([4, 5] : List IP)) ∧
    (SubPath [4, 5] (([4, 5] : List IP).getD 1 0) = ([4, 5] : List IP).take (1 + 1) ∧
      SubPath [4, 5] 9 = []) :=
  ⟨by decide, by decide, by decide,
    C6_subPath_first_occurrence [4, 5] 1 9 (by decide) (by decide) (by decide)⟩

/-- Counterexample to C6 as stated: for `P = [1, 1]` and `k = 1` the claim
demands `SubPath(P, P[1]) = P[0..1] = [1, 1]`, but the loop returns the
prefix at the *first* occurrence, `[1]`. -/
theorem C6_subPath_counterexample :
    SubPath [1, 1] (([1, 1] : List IP).getD 1 0) = [1] ∧
    ([1, 1] : List IP).take (1 + 1) = [1, 1] ∧
    SubPath [1, 1] (([1, 1] : List IP).getD 1 0) ≠ ([1, 1] : List IP).take (1 + 1) :=
  ⟨rfl, rfl, by decide⟩

/-! ## Claim C4 -/

/-- C4 (amended): when a Boomerang probe sees a matching reply before its
timer fires (and the send succeeded), the returned result has `Err = nil`
and carries the *zero value* of the `BoomerangErrorType` enumeration, which
is numerically equal to `timedOut`; the enumeration declares exactly three
pairwise-distinct values `timedOut`, `fatal`, `sendError` — there is no
`ok` value. -/
theorem C4_boomerang_success_zeroValue (lm : ListenerMap) (path : List IP)
    (timeout : Nat) (env : BoomerangEnv)
    (hp : 2 ≤ path.length) (hsend : env.sendFails = false)
    (hreply : env.replyBeforeTimer = true) :
    ∃ r lm2, Boomerang lm path timeout env = some (r, lm2) ∧
      r.err = none ∧ r.errorType = timedOut ∧
      timedOut ≠ fatal ∧ timedOut ≠ sendError ∧ fatal ≠ sendError := by
  have hne : path ≠ [] := by
    intro hcontra
    rw [hcontra] at hp
    simp at hp
  have hlast : ∃ destHop, path.getLast? = some destHop := by
    cases hq : path.getLast? with
    | some destHop => exact ⟨destHop, rfl⟩
    | none => exact absurd (List.getLast?_eq_none_iff.mp hq) hne
  obtain ⟨destHop, hLast⟩ := hlast
  simp only [Boomerang, hLast,
    createRoundTrip_eq path (marshalBoomerangPayload destHop env.uuid) hp,
    hsend, hreply, Bool.false_eq_true, if_false, if_true]
  exact ⟨_, _, rfl, rfl, rfl, by decide, by decide, by decide⟩

/-- Witness for the amended C4: a 2-hop probe that receives its reply. -/
theorem C4_boomerang_success_zeroValue_witness :
    2 ≤ ([1, 2] : List IP).length ∧ c4Env.sendFails = false ∧
    c4Env.replyBeforeTimer = true ∧
    (∃ r lm2, Boomerang emptyListenerMap [1, 2] 3 c4Env = some (r, lm2) ∧
      r.err = none ∧ r.errorType = timedOut ∧
      timedOut ≠ fatal ∧ timedOut ≠ sendError ∧ fatal ≠ sendError) :=
  ⟨by decide, rfl, rfl,
    C4_boomerang_success_zeroValue emptyListenerMap [1, 2] 3 c4Env
      (by decide) rfl rfl⟩

/-- Counterexample to C4 as stated: on a successful 2-hop probe the result
carries error type 0, which *is* `timedOut` — there is no fourth `ok` value
distinct from `timedOut`, `fatal` and `sendError` (the enumeration stops at
`sendError = 2`). -/
theorem C4_boomerang_success_counterexample :
    (Boomerang emptyListenerMap [1, 2] 3 c4Env).map (fun r => r.1.errorType) =
      some timedOut ∧
    (Boomerang emptyListenerMap [1, 2] 3 c4Env).map (fun r => r.1.err) =
      some none ∧
    timedOut = 0 ∧ fatal = 1 ∧ sendError = 2 :=
  ⟨rfl, rfl, rfl, rfl, rfl⟩

/-! ## Claim C5 -/

/-- C5: when the filter lacks `"ip proto 4"`, both `ProbeEachHopOfPath` and
`ProbeEachHopOfPathSync` build a capacity-0 channel and perform a blocking
send of the fatal result into it before returning it; no receiver can exist,
so the send never completes (`none`): the call never returns and the caller
receives no result at all — not the single fatal result the claim
promises. -/
theorem C5_probeEachHop_badFilter_blocks :
    containsIPProto4 "udp" = false ∧
    (GoChan.make BoomerangResult 0).hasSpace = false ∧
    ProbeEachHopOfPath "udp" [1, 2, 3] 1 c5Probe = none ∧
    ProbeEachHopOfPathSync "udp" [1, 2, 3] 1 c5Probe = none :=
  ⟨rfl, rfl, rfl, rfl⟩

/-! ## Claim C7 -/

/-- Updating one key of the hash map leaves the other keys untouched. -/
theorem lookupAssoc_cons (e : Bytes × GoChan Packet)
    (rest : List (Bytes × GoChan Packet)) (k : Bytes) :
    lookupAssoc (e :: rest) k =
      if e.1 = k then some e.2 else lookupAssoc rest k := by
  by_cases h : e.1 = k
  · simp [lookupAssoc, List.find?, h]
  · simp [lookupAssoc, List.find?, h]

theorem lookupAssoc_update_ne (m : List (Bytes × GoChan Packet)) (k : Bytes)
    (c : GoChan Packet) (k2 : Bytes) (hne : k2 ≠ k) :
    lookupAssoc (updateAssoc m k c) k2 = lookupAssoc m k2 := by
  induction m with
  | nil => rfl
  | cons e rest ih =>
    simp only [updateAssoc, List.map_cons]
    by_cases hek : e.1 = k
    · rw [if_pos hek, lookupAssoc_cons, lookupAssoc_cons,
        if_neg (show ¬ ((k, c).1 = k2) from fun hcontra => hne hcontra.symm),
        if_neg (show ¬ (e.1 = k2) from fun hcontra =>
          hne (by rw [← hcontra]; exact hek))]
      exact ih
    · rw [if_neg hek, lookupAssoc_cons, lookupAssoc_cons]
      by_cases he2 : e.1 = k2
      · rw [if_pos he2, if_pos he2]
      · rw [if_neg he2, if_neg he2]
        exact ih

/-- A blocked dispatcher stays blocked for the rest of the hash list. -/
theorem run_fold_none (p : Packet) (hashes : List Bytes) :
    hashes.foldl (runStep p) none = none := by
  induction hashes with
  | nil => rfl
  | cons h rest ih => simpa [runStep] using ih

/-- Once some computed hash points at a full queue, the dispatch fold
blocks: fold result `none`. -/
theorem run_fold_blocks (p : Packet) (hashes : List Bytes) :
    ∀ (m : List (Bytes × GoChan Packet)) (h : Bytes) (c : GoChan Packet),
      h ∈ hashes → lookupAssoc m h = some c → c.capacity ≤ c.buffer.length →
      hashes.foldl (runStep p) (some m) = none := by
  induction hashes with
  | nil =>
    intro m h c hmem _ _
    simp at hmem
  | cons h0 rest ih =>
    intro m h c hmem hlook hfull
    rw [List.foldl_cons]
    by_cases heq : h0 = h
    · have hlook0 : lookupAssoc m h0 = some c := by rw [heq]; exact hlook
      have hsend : c.send p = none := by
        rw [GoChan.send, if_neg (by omega)]
      have hstep : runStep p (some m) h0 = none := by
        unfold runStep
        simp [hlook0, hsend]
      rw [hstep]
      exact run_fold_none p rest
    · cases hstep : runStep p (some m) h0 with
      | none =>
        exact run_fold_none p rest
      | some m2 =>
        have hmem2 : h ∈ rest := by
          rcases List.mem_cons.mp hmem with hcl | hcr
          · exact absurd hcl.symm heq
          · exact hcr
        have hlook2 : lookupAssoc m2 h = some c := by
          unfold runStep at hstep
          simp only [Option.bind] at hstep
          cases hl0 : lookupAssoc m h0 with
          | none =>
            rw [hl0] at hstep
            simp only [] at hstep
            cases hstep
            exact hlook
          | some ch =>
            simp only [hl0] at hstep
            cases hch : ch.send p with
            | none =>
              rw [hch] at hstep
              simp at hstep
            | some c2 =>
              rw [hch] at hstep
              simp at hstep
              rw [← hstep,
                lookupAssoc_update_ne m h0 c2 h (fun hcontra => heq hcontra.symm)]
              exact hlook
        exact ih m2 h c hmem2 hlook2 hfull

/-- C7 (amended): dispatch looks each computed hash up under the mutex and,
on a hit, delivers the packet to the capacity-1 queue with a *blocking*
send (the source has no select/default); consequently, when a matched queue
already holds an undrained packet, the dispatcher blocks until the queue is
drained — the new packet is not dropped and `run` does not complete. -/
theorem C7_hashDispatch_blocksOnFullQueue (phm : packetHashMap) (p : Packet)
    (h : Bytes) (c : GoChan Packet)
    (hmem : h ∈ computedHashSlice phm p)
    (hlook : lookupAssoc phm.m h = some c)
    (hfull : c.capacity ≤ c.buffer.length) :
    packetHashMap.run phm p = none := by
  unfold packetHashMap.run
  rw [run_fold_blocks p (computedHashSlice phm p) phm.m h c hmem hlook hfull]
  rfl

/-- Witness for the amended C7: the Boomerang hasher maps the new packet to
`c7Key`, whose queue still holds an undrained packet, so the dispatcher
blocks. -/
theorem C7_hashDispatch_blocksOnFullQueue_witness :
    c7Key ∈ computedHashSlice c7Phm c7NewPacket ∧
    lookupAssoc c7Phm.m c7Key = some c7FullChan ∧
    c7FullChan.capacity ≤ c7FullChan.buffer.length ∧
    packetHashMap.run c7Phm c7NewPacket = none :=
  ⟨by decide, rfl, by decide,
    C7_hashDispatch_blocksOnFullQueue c7Phm c7NewPacket c7Key c7FullChan
      (by decide) rfl (by decide)⟩

/-- Counterexample to C7 as stated: with the queue under `c7Key` already
holding an undrained packet, `run` on a matching packet blocks (`none`)
instead of completing with the new packet dropped; with the queue empty the
same dispatch completes, appending the packet — the send is blocking, not
non-blocking drop-on-full. -/
theorem C7_hashDispatch_counterexample :
    computedHashSlice c7Phm c7NewPacket = [c7Key] ∧
    packetHashMap.run c7Phm c7NewPacket = none ∧
    (packetHashMap.run c7PhmEmpty c7NewPacket).map (fun phm2 => phm2.m) =
      some [(c7Key, { capacity := 1, buffer := [c7NewPacket] })] :=
  ⟨rfl, rfl, rfl⟩

/-! ## Claim C8 -/

/-- C8: the Boomerang listener is *not* unregistered on the success path.
With the spec-modelled listener table (no auto-removal on dispatch), a
2-hop probe that receives its matching reply returns with the listener
still registered (`[0]`), while the timed-out run unregisters it (`[]`):
the code calls `UnregisterListener` only in the timer branch. -/
theorem C8_boomerang_listener_leak :
    (Boomerang emptyListenerMap [1, 2] 3 c8EnvOk).map (fun r => r.1.err) =
      some none ∧
    (Boomerang emptyListenerMap [1, 2] 3 c8EnvOk).map (fun r => r.2.registered) =
      some [0] ∧
    (Boomerang emptyListenerMap [1, 2] 3 c8EnvTimeout).map
      (fun r => r.2.registered) = some [] :=
  ⟨rfl, rfl, rfl⟩

/-! ## Claim C9 -/

theorem flatten_replicate_length {α : Type _} (round : List α) (n : Nat) :
    (List.flatten (List.replicate n round)).length = n * round.length := by
  induction n with
  | zero => simp
  | succ n ih =>
    rw [List.replicate_succ, List.flatten_cons, List.length_append, ih]
    ring

theorem flatten_replicate_getD {α : Type _} (round : List α) (n : Nat) :
    ∀ (r j : Nat) (d : α), r < n → j < round.length →
      (List.flatten (List.replicate n round)).getD (r * round.length + j) d =
        round.getD j d := by
  induction n with
  | zero =>
    intro r j d hr _
    omega
  | succ n ih =>
    intro r j d hr hj
    rw [List.replicate_succ, List.flatten_cons]
    cases r with
    | zero =>
      simp only [Nat.zero_mul, Nat.zero_add]
      rw [List.getD_eq_getElem?_getD, List.getElem?_append_left hj,
        ← List.getD_eq_getElem?_getD]
    | succ r2 =>
      have hidx : (r2 + 1) * round.length + j =
          round.length + (r2 * round.length + j) := by ring
      rw [hidx, List.getD_eq_getElem?_getD,
        List.getElem?_append_right (by omega), Nat.add_sub_cancel_left,
        ← List.getD_eq_getElem?_getD]
      exact ih r2 j d (by omega) hj

/-- C9: with a conforming filter and `|P| ≥ 2`, `ProbeEachHopOfPathSync`
emits exactly `numPackets * (|P| - 1)` results — round `r` occupies output
positions `r*(|P|-1) .. r*(|P|-1)+(|P|-2)`, holding one probe result per
prefix `P[0..j+2)` — and then closes the channel. -/
theorem C9_probeEachHopOfPathSync_emissions (filter : String) (path : List IP)
    (numPackets : Nat) (boomerang : List IP → BoomerangResult)
    (hf : containsIPProto4 filter = true) (hp : 2 ≤ path.length) :
    ∃ out, ProbeEachHopOfPathSync filter path numPackets boomerang =
        some (out, true) ∧
      out.length = numPackets * (path.length - 1) ∧
      (∀ r j, r < numPackets → j < path.length - 1 →
        out.getD (r * (path.length - 1) + j) (fatalFilterResult filter) =
          boomerang (path.take (2 + j))) := by
  have hmodel : ProbeEachHopOfPathSync filter path numPackets boomerang =
      some (List.flatten (List.replicate numPackets
        ((List.range' 2 (path.length - 1)).map
          (fun i => boomerang (path.take i)))), true) := by
    simp [ProbeEachHopOfPathSync, hf, List.map_const']
  refine ⟨_, hmodel, ?_, ?_⟩
  · rw [flatten_replicate_length]
    simp
  · intro r j hr hj
    have hlen : ((List.range' 2 (path.length - 1)).map
        (fun i => boomerang (path.take i))).length = path.length - 1 := by simp
    have hjr : j < ((List.range' 2 (path.length - 1)).map
        (fun i => boomerang (path.take i))).length := by omega
    rw [show r * (path.length - 1) + j = r * ((List.range' 2 (path.length - 1)).map
        (fun i => boomerang (path.take i))).length + j by rw [hlen],
      flatten_replicate_getD _ numPackets r j _ hr hjr,
      List.getD_eq_getElem?_getD, List.getElem?_eq_getElem hjr]
    simp

/-- Witness for C9: filter `"ip proto 4"`, `P = [1, 2, 3]`, 2 rounds. -/
theorem C9_probeEachHopOfPathSync_emissions_witness :
    containsIPProto4 "ip proto 4" = true ∧ 2 ≤ ([1, 2, 3] : List IP).length ∧
    (∃ out, ProbeEachHopOfPathSync "ip proto 4" [1, 2, 3] 2 c9Probe =
        some (out, true) ∧
      out.length = 2 * (([1, 2, 3] : List IP).length - 1) ∧
      (∀ r j, r < 2 → j < ([1, 2, 3] : List IP).length - 1 →
        out.getD (r * (([1, 2, 3] : List IP).length - 1) + j)
            (fatalFilterResult "ip proto 4") =
          c9Probe (([1, 2, 3] : List IP).take (2 + j)))) :=
  ⟨by decide, by decide,
    C9_probeEachHopOfPathSync_emissions "ip proto 4" [1, 2, 3] 2 c9Probe
      (by decide) (by decide)⟩

/-! ## Claim C10 -/

theorem pathChannelLoop_timeout (oracle : Nat → ProbeEvent)
    (h : ∀ t, oracle t = .timeout) :
    ∀ l : List Nat, pathChannelLoop oracle l = (List.replicate l.length none, true) := by
  intro l
  induction l with
  | nil => rfl
  | cons t rest ih => simp [pathChannelLoop, h t, ih, List.replicate_succ]

/-- C10: when every per-TTL wait resolves to the timeout branch (no
classified response ever arrives), the TTL loop of `GetPathChannelTo` emits
exactly 32 `nil` entries — one per TTL 1..32, never proceeding past 32 —
and the deferred close then closes the hop channel normally. -/
theorem C10_getPathChannelTo_allTimeouts (oracle : Nat → ProbeEvent)
    (h : ∀ t, oracle t = .timeout) :
    GetPathChannelToTTLLoop oracle = (List.replicate 32 none, true) ∧
    (GetPathChannelToTTLLoop oracle).1.length = 32 := by
  have hloop := pathChannelLoop_timeout oracle h (List.range' 1 32)
  constructor
  · rw [GetPathChannelToTTLLoop, hloop]
    simp
  · rw [GetPathChannelToTTLLoop, hloop]
    simp

/-- Witness for C10 with the constant timeout oracle. -/
theorem C10_getPathChannelTo_allTimeouts_witness :
    (∀ t, (fun _ : Nat => ProbeEvent.timeout) t = ProbeEvent.timeout) ∧
    (GetPathChannelToTTLLoop (fun _ : Nat => ProbeEvent.timeout) =
        (List.replicate 32 none, true) ∧
      (GetPathChannelToTTLLoop (fun _ : Nat => ProbeEvent.timeout)).1.length = 32) :=
  ⟨fun _ => rfl,
    C10_getPathChannelTo_allTimeouts (fun _ : Nat => ProbeEvent.timeout)
      (fun _ => rfl)⟩

end Beacon
